import Mathlib

/-!
Verification of the OllamaMCP repository: a shallow embedding of
`ollama_tool_use.py` (OllamaToolManager), `ollama_mcp_chatbot.py`
(BaseChatbot / OllamaMCPChatbot) and `ollama_mcp.py` (create_agents),
with theorems settling the specification claims about error handling,
termination of the turn loop, configuration loading, shutdown
idempotence and the arithmetic tool.

Python values that flow through the tool layer are modelled by `PyVal`
(integers, strings and None); exceptions are modelled by `Except String`,
where `.error e` means the Python code raised an exception whose
stringification is `e`.  External effects (the Ollama backend, the stock
and web APIs, the MCP subprocess) are modelled as explicit environment
parameters, so every definition is executable.
-/

/-- A Python value as used by the tool layer: an int, a str, or None.
Floats and other types never reach the modelled code paths. -/
inductive PyVal where
  | int : Int → PyVal
  | str : String → PyVal
  | pyNone : PyVal
deriving DecidableEq, Repr

/-- Decimal value of a list of digit characters. -/
def digitsToNat (l : List Char) : Nat :=
  l.foldl (fun acc c => acc * 10 + (c.toNat - 48)) 0

/-- Leading and trailing whitespace removal, as Python `int` applies to
its string argument. -/
def stripWhitespace (l : List Char) : List Char :=
  ((l.dropWhile Char.isWhitespace).reverse.dropWhile Char.isWhitespace).reverse

/-- Python `int(s)` on a string: strips surrounding whitespace, accepts an
optional sign followed by decimal digits; `none` models the ValueError
raised on any other string.  (Underscore digit separators, which the
claims never exercise, are not modelled.) -/
def pyIntOfString (s : String) : Option Int :=
  let cs := stripWhitespace s.toList
  match cs with
  | [] => none
  | c :: rest =>
    if c = '-' then
      if rest ≠ [] ∧ rest.all Char.isDigit then some (-(digitsToNat rest : Int)) else none
    else if c = '+' then
      if rest ≠ [] ∧ rest.all Char.isDigit then some ((digitsToNat rest : Int)) else none
    else
      if cs.all Char.isDigit then some ((digitsToNat cs : Int)) else none

/-- The `isinstance(x, str)` conversion at the top of `arithmetic`:
strings are passed through `int()` (raising ValueError on failure,
modelled as `.error`), every other value is left unchanged. -/
def toIntIfStr : PyVal → Except String PyVal
  | .str s =>
    match pyIntOfString s with
    | some n => .ok (.int n)
    | none => .error ("invalid literal for int() with base 10: " ++ s)
  | v => .ok v

/-- `OllamaToolManager.add_numbers`: Python `a + b`.  Int addition, string
concatenation; any other combination raises TypeError. -/
def add_numbers : PyVal → PyVal → Except String PyVal
  | .int a, .int b => .ok (.int (a + b))
  | .str a, .str b => .ok (.str (a ++ b))
  | _, _ => .error "TypeError: unsupported operand types for +"

/-- `OllamaToolManager.subtract_numbers`: Python `a - b`, defined for ints
only. -/
def subtract_numbers : PyVal → PyVal → Except String PyVal
  | .int a, .int b => .ok (.int (a - b))
  | _, _ => .error "TypeError: unsupported operand types for -"

/-- Body of the `try` block of `OllamaToolManager.arithmetic`: convert
string arguments with `int()`, then dispatch on the operation name. -/
def arithmeticCore (operation : String) (a b : PyVal) : Except String PyVal :=
  match toIntIfStr a with
  | .error e => .error e
  | .ok a2 =>
    match toIntIfStr b with
    | .error e => .error e
    | .ok b2 =>
      if operation = "add" ∨ operation = "+" then add_numbers a2 b2
      else if operation = "subtract" ∨ operation = "-" then subtract_numbers a2 b2
      else .ok (.str ("Unknown operation: " ++ operation))

/-- `OllamaToolManager.arithmetic`: the `except Exception` handler turns
any raised exception into the string
`"Error in arithmetic operation: " ++ e`; the function itself never
raises (its result type is `PyVal`, not `Except`). -/
def arithmetic (operation : String) (a b : PyVal) : PyVal :=
  match arithmeticCore operation a b with
  | .ok v => v
  | .error e => .str ("Error in arithmetic operation: " ++ e)

/-- Python `str(v)` as used by `print` on a function result. -/
def pyStr : PyVal → String
  | .int n => toString n
  | .str s => s
  | .pyNone => "None"

/-- One entry of `response.message.tool_calls`: the requested function
name and its keyword-argument mapping (`tool.function.name`,
`tool.function.arguments`). -/
structure ToolCall where
  name : String
  arguments : List (String × PyVal)
deriving DecidableEq, Repr

/-- `response.message` of one `ollama.chat` reply: text content plus the
list of requested tool calls. -/
structure ChatResponse where
  content : String
  tool_calls : List ToolCall
deriving DecidableEq, Repr

/-- Outcomes of the two IO-backed tools, supplied by the environment:
`get_stock_price` may raise (modelled by `Except`), while
`request_with_headers` catches its own request errors and always returns
a string. -/
structure ToolEnv where
  stockPrice : String → Except String PyVal
  requestResult : String → String → PyVal

/-- Keys of `self.available_functions` in `OllamaToolManager.__init__`. -/
def availableNames : List String :=
  ["get_stock_price", "request", "add_numbers", "subtract_numbers", "arithmetic"]

/-- Keyword-argument lookup for `**tool.function.arguments`. -/
def lookupArg (args : List (String × PyVal)) (key : String) : Option PyVal :=
  match args.find? (fun p => p.1 = key) with
  | some p => some p.2
  | none => none

/-- `function_to_call(**tool.function.arguments)` for each entry of
`available_functions`.  A missing or wrongly-typed keyword argument
raises TypeError (non-string `operation` values, never exercised by the
claims, are folded into that case). -/
def callFunction (env : ToolEnv) (name : String) (args : List (String × PyVal)) :
    Except String PyVal :=
  match name with
  | "get_stock_price" =>
    match lookupArg args "symbol" with
    | some (PyVal.str sym) => env.stockPrice sym
    | _ => .error "TypeError: get_stock_price missing argument symbol"
  | "request" =>
    match lookupArg args "method", lookupArg args "url" with
    | some (PyVal.str m), some (PyVal.str u) => .ok (env.requestResult m u)
    | _, _ => .error "TypeError: request missing arguments"
  | "add_numbers" =>
    match lookupArg args "a", lookupArg args "b" with
    | some a, some b => add_numbers a b
    | _, _ => .error "TypeError: add_numbers missing arguments"
  | "subtract_numbers" =>
    match lookupArg args "a", lookupArg args "b" with
    | some a, some b => subtract_numbers a b
    | _, _ => .error "TypeError: subtract_numbers missing arguments"
  | "arithmetic" =>
    match lookupArg args "operation", lookupArg args "a", lookupArg args "b" with
    | some (PyVal.str op), some a, some b => .ok (arithmetic op a b)
    | _, _, _ => .error "TypeError: arithmetic missing arguments"
  | other => .error ("KeyError: " ++ other)

/-- Result of one `process_prompt` call: the lines printed, the number of
`ollama.chat` round trips performed, and either the returned value
(`.ok`) or an uncaught exception (`.error`). -/
structure PPResult where
  log : List String
  backendCalls : Nat
  result : Except String (Option PyVal)
deriving Repr

/-- The `for tool in response.message.tool_calls` loop of
`process_prompt`: the first requested name found in
`available_functions` is called and its result returned; a name that is
not found is reported with a printed line and the loop continues; if no
call resolves, the loop falls through and the function returns None.
The argument-printing line is modelled as the constant "Arguments:"
(its rendering of the Python dict is irrelevant to every claim). -/
def runToolCalls (env : ToolEnv) :
    List ToolCall → List String → List String × Except String (Option PyVal)
  | [], log => (log, .ok none)
  | tc :: rest, log =>
    if tc.name ∈ availableNames then
      let log := log ++ ["Calling function: " ++ tc.name, "Arguments:"]
      match callFunction env tc.name tc.arguments with
      | .error e => (log, .error e)
      | .ok v => (log ++ ["Function output: " ++ pyStr v], .ok (some v))
    else
      runToolCalls env rest (log ++ ["Function " ++ tc.name ++ " not found"])

/-- `OllamaToolManager.process_prompt`.  The backend is modelled as a
stream of replies (`backend n` is the reply the `n`-th `ollama.chat`
round trip would produce); the source performs exactly one such call, so
only `backend 0` is ever consulted.  If that reply carries tool calls the
loop above runs; otherwise the function returns None. -/
def process_prompt (env : ToolEnv) (backend : Nat → ChatResponse) (prompt : String) :
    PPResult :=
  let log := ["Prompt: " ++ prompt]
  let resp := backend 0
  let r :=
    if resp.tool_calls ≠ [] then runToolCalls env resp.tool_calls log
    else (log, .ok none)
  ⟨r.1, 1, r.2⟩

/-- A fixed tool environment for concrete evaluations: the stock lookup
fails as in the source's final `raise`, the web request reports an
error string. -/
def envDefault : ToolEnv :=
  ⟨fun _ => .error "Could not find valid price data",
   fun _ url => .str ("Error making request: " ++ url)⟩

/-- Role of a langchain message: SystemMessage, HumanMessage, AIMessage or
ToolMessage. -/
inductive Role where
  | system : Role
  | human : Role
  | ai : Role
  | tool : Role
deriving DecidableEq, Repr

/-- One message of the conversation memory. -/
structure Msg where
  role : Role
  content : String
deriving DecidableEq, Repr

/-- The MCP `ClientSession` object; `aexitFails` is `some e` when its
`__aexit__` would raise the exception `e`. -/
structure McpSession where
  aexitFails : Option String
deriving DecidableEq, Repr

/-- The `stdio_client` object; `aexitFails` as for `McpSession`. -/
structure McpClient where
  aexitFails : Option String
deriving DecidableEq, Repr

/-- Behaviour of the external world during `OllamaMCPChatbot.initialize`:
the outcome of each awaited MCP step, in source order.  `clientEnterFails`
models `stdio_client(...).__aenter__` (process launch), the two session
fields model the `ClientSession` handshake, and `loadToolsResult` models
`load_mcp_tools`. -/
structure InitEnv where
  client : McpClient
  clientEnterFails : Option String
  session : McpSession
  sessionEnterFails : Option String
  sessionInitFails : Option String
  loadToolsResult : Except String (List String)

/-- The mutable fields of an `OllamaMCPChatbot` instance that the
modelled methods read or write.  Opaque handles (`chat_model`,
`mcp_read`, `mcp_write`, `agent`) are `Option Unit`: `some ()` when the
attribute holds a live object, `none` when it is None/unset. -/
structure ChatbotState where
  memory : List Msg
  chat_model : Option Unit
  mcp_session : Option McpSession
  mcp_client : Option McpClient
  mcp_read : Option Unit
  mcp_write : Option Unit
  mcp_tools : Option (List String)
  agent : Option Unit
  ready : Bool
  system_message : Option String
deriving DecidableEq, Repr

/-- The state `OllamaMCPChatbot.__init__` leaves behind: empty memory,
no MCP objects, `ready = False`. -/
def mkChatbot (sysMsg : Option String) : ChatbotState :=
  ⟨[], none, none, none, none, none, none, none, false, sysMsg⟩

/-- `OllamaMCPChatbot.initialize`.  The second component is `some e` when
the `except Exception` handler re-raised the exception `e` to the caller
(after logging it and setting `ready = False`), `none` on success.
Constructors that cannot fail (`ChatOllama`, `stdio_client`,
`ClientSession`, `create_react_agent`) are taken to succeed. -/
def initChatbot (env : InitEnv) (s : ChatbotState) : ChatbotState × Option String :=
  let s := { s with chat_model := some () }
  let s := { s with mcp_client := some env.client }
  match env.clientEnterFails with
  | some e => ({ s with ready := false }, some e)
  | none =>
  let s := { s with mcp_read := some (), mcp_write := some () }
  let s := { s with mcp_session := some env.session }
  match env.sessionEnterFails with
  | some e => ({ s with ready := false }, some e)
  | none =>
  match env.sessionInitFails with
  | some e => ({ s with ready := false }, some e)
  | none =>
  match env.loadToolsResult with
  | .error e => ({ s with ready := false }, some e)
  | .ok tools =>
  let s := { s with mcp_tools := some tools, agent := some (), ready := true }
  match s.system_message with
  | some m => ({ s with memory := s.memory ++ [⟨Role.system, m⟩] }, none)
  | none => (s, none)

/-- The first failing step of an `InitEnv`, in the order the source
awaits them; `none` when the whole MCP startup succeeds. -/
def initFailure (env : InitEnv) : Option String :=
  match env.clientEnterFails with
  | some e => some e
  | none =>
  match env.sessionEnterFails with
  | some e => some e
  | none =>
  match env.sessionInitFails with
  | some e => some e
  | none =>
  match env.loadToolsResult with
  | .error e => some e
  | .ok _ => none

/-- `BaseChatbot.get_history`: the buffer memory's message list. -/
def get_history (s : ChatbotState) : List Msg :=
  s.memory

/-- `BaseChatbot.clear_history`: `self.memory.clear()`. -/
def clear_history (s : ChatbotState) : ChatbotState :=
  { s with memory := [] }

/-- One step of the `for message in agent_response.get("messages", [])`
loop in `OllamaMCPChatbot.chat`: an AIMessage with truthy content is
re-appended to memory and becomes the current response content; a
ToolMessage with truthy content is appended to memory; everything else
is skipped. -/
def extractStep (acc : List Msg × String) (m : Msg) : List Msg × String :=
  if m.role = Role.ai ∧ m.content ≠ "" then
    (acc.1 ++ [⟨Role.ai, m.content⟩], m.content)
  else if m.role = Role.tool ∧ m.content ≠ "" then
    (acc.1 ++ [m], acc.2)
  else
    acc

/-- `OllamaMCPChatbot.chat`.  `agentOutcome` models
`self.agent.ainvoke(...)`: `.ok msgs` is the returned message list,
`.error e` an exception raised by the agent (caught by the handler and
returned as error text).  The overall result is `.error e` only when the
un-guarded `initialize` call at the top re-raises. -/
def chat (env : InitEnv) (agentOutcome : Except String (List Msg))
    (s : ChatbotState) (message : String) : Except String (ChatbotState × String) :=
  let (s, initErr) := if s.ready then (s, none) else initChatbot env s
  match initErr with
  | some e => .error e
  | none =>
    if s.ready = false then
      .ok (s, "Chatbot is not ready. Please check the logs and try again.")
    else
      let s := { s with memory := s.memory ++ [⟨Role.human, message⟩] }
      match agentOutcome with
      | .error e => .ok (s, "Error processing message: " ++ e)
      | .ok msgs =>
        let (mem, content) := msgs.foldl extractStep (s.memory, "")
        .ok ({ s with memory := mem }, content)

/-- `OllamaMCPChatbot.cleanup`.  The second component is the error logged
(never raised) by the `except` around the two `__aexit__` calls; the
session is exited first, then the client, and the first failure skips
the rest.  `super().cleanup()` replaces the memory with a fresh empty
buffer.  Note the source resets every MCP field except `mcp_client`. -/
def cleanup (s : ChatbotState) : ChatbotState × Option String :=
  let err : Option String :=
    match s.mcp_session with
    | none => none
    | some sess =>
      match sess.aexitFails with
      | some e => some e
      | none =>
        match s.mcp_client with
        | none => some "AttributeError: mcp_client"
        | some cl => cl.aexitFails
  ({ s with memory := [], chat_model := none, mcp_session := none,
            mcp_read := none, mcp_write := none, mcp_tools := none,
            agent := none, ready := false }, err)

/-- One configuration entry of `mpc_servers.json`; each field is
`none` when the key is absent from the JSON object. -/
structure ServerEntry where
  active : Option Bool
  command : Option String
  args : Option (List String)
  instructions : Option String
deriving DecidableEq, Repr

/-- The `praisonaiagents` Agent as constructed by `create_agents`. -/
structure Agent where
  instructions : String
  llm : String
  mcpCommand : String
  verbose : Bool
deriving DecidableEq, Repr

/-- The module constant `LLM` of `ollama_mcp.py`. -/
def LLM : String := "ollama/llama3.2"

/-- `create_agents` of `ollama_mcp.py`, over an already-loaded config
(the `mcpServers` mapping, in insertion order).  Entries whose `active`
flag is not true are skipped via `server_config.get("active", False)`;
for the others, the bracket accesses `server_config["command"]`,
`["args"]`, `["instructions"]` raise KeyError when the key is missing,
aborting the whole load (modelled by `.error`). -/
def create_agents : List (String × ServerEntry) → Except String (List (String × Agent))
  | [] => .ok []
  | (name, cfg) :: rest =>
    if cfg.active.getD false = false then
      create_agents rest
    else
      match cfg.command with
      | none => .error "KeyError: command"
      | some cmd =>
        match cfg.args with
        | none => .error "KeyError: args"
        | some argList =>
          match cfg.instructions with
          | none => .error "KeyError: instructions"
          | some instr =>
            match create_agents rest with
            | .error e => .error e
            | .ok agents =>
              .ok ((name, { instructions := instr, llm := LLM,
                            mcpCommand := String.intercalate " " (cmd :: argList),
                            verbose := true }) :: agents)

/-- A backend that requests the same arithmetic tool call in every reply,
as in the turn-loop termination scenario. -/
def alwaysToolBackend : Nat → ChatResponse :=
  fun _ => ⟨"", [⟨"arithmetic",
    [("operation", PyVal.str "add"), ("a", PyVal.int 3), ("b", PyVal.int 1)]⟩]⟩

/-- An argument that is an integer or a decimal-digit string, together
with the integer it denotes: either the int `n` itself, or a string that
the `int()` conversion at the top of `arithmetic` turns into `n`. -/
def numArg (v : PyVal) (n : Int) : Prop :=
  v = .int n ∨ ∃ s, v = .str s ∧ pyIntOfString s = some n

/-- Helper: on an integer-or-decimal-string argument, the `isinstance`
conversion of `arithmetic` yields the denoted integer. -/
theorem toIntIfStr_numArg (v : PyVal) (n : Int) (h : numArg v n) :
    toIntIfStr v = .ok (.int n) := by
  rcases h with rfl | ⟨s, rfl, hs⟩
  · rfl
  · simp [toIntIfStr, hs]

/-- C10: for all arguments a and b that are integers or decimal-digit
strings — in either position, mixed pairs included — `arithmetic`
returns the integer a + b on "add"/"+" and a - b on "subtract"/"-"; on
such arguments every other operation yields the string
"Unknown operation: " followed by the operation; a non-numeric string in
either position (the other argument being anything, resp. an integer or
decimal-digit string) yields a string beginning
"Error in arithmetic operation:"; and the function never raises in any
of these cases (its result type is `PyVal`, not `Except`). -/
theorem arithmetic_spec :
    (∀ (a b : PyVal) (m n : Int), numArg a m → numArg b n →
      arithmetic "add" a b = .int (m + n) ∧
      arithmetic "+" a b = .int (m + n) ∧
      arithmetic "subtract" a b = .int (m - n) ∧
      arithmetic "-" a b = .int (m - n)) ∧
    (∀ (op : String) (a b : PyVal) (m n : Int), numArg a m → numArg b n →
      op ≠ "add" → op ≠ "+" → op ≠ "subtract" → op ≠ "-" →
      arithmetic op a b = .str ("Unknown operation: " ++ op)) ∧
    (∀ (op s : String) (b : PyVal), pyIntOfString s = none →
      ∃ e, arithmetic op (.str s) b = .str ("Error in arithmetic operation: " ++ e)) ∧
    (∀ (op s : String) (a : PyVal) (m : Int), numArg a m → pyIntOfString s = none →
      ∃ e, arithmetic op a (.str s) = .str ("Error in arithmetic operation: " ++ e)) := by
  refine ⟨?_, ?_, ?_, ?_⟩
  · intro a b m n ha hb
    refine ⟨?_, ?_, ?_, ?_⟩ <;>
      simp [arithmetic, arithmeticCore, toIntIfStr_numArg a m ha,
        toIntIfStr_numArg b n hb, add_numbers, subtract_numbers]
  · intro op a b m n ha hb h1 h2 h3 h4
    simp [arithmetic, arithmeticCore, toIntIfStr_numArg a m ha,
      toIntIfStr_numArg b n hb, h1, h2, h3, h4]
  · intro op s b hs
    exact ⟨"invalid literal for int() with base 10: " ++ s,
      by simp [arithmetic, arithmeticCore, toIntIfStr, hs]⟩
  · intro op s a m ha hs
    have hb : toIntIfStr (.str s) =
        .error ("invalid literal for int() with base 10: " ++ s) := by
      simp [toIntIfStr, hs]
    exact ⟨"invalid literal for int() with base 10: " ++ s,
      by simp [arithmetic, arithmeticCore, toIntIfStr_numArg a m ha, hb]⟩

/-- Witness for `arithmetic_spec` at concrete inputs, exercising both-int,
both-string and mixed argument pairs, an unknown operation on a string
argument, and a non-numeric string in each position. -/
theorem arithmetic_spec_witness :
    arithmetic "add" (.int 2) (.int 3) = .int (2 + 3) ∧
    arithmetic "subtract" (.str "10") (.str "4") = .int (10 - 4) ∧
    arithmetic "+" (.int 5) (.str "3") = .int (5 + 3) ∧
    arithmetic "-" (.str "7") (.int 2) = .int (7 - 2) ∧
    arithmetic "times" (.str "1") (.int 2) = .str ("Unknown operation: " ++ "times") ∧
    (∃ e, arithmetic "add" (.str "abc") (.int 1) =
      .str ("Error in arithmetic operation: " ++ e)) ∧
    (∃ e, arithmetic "add" (.int 1) (.str "abc") =
      .str ("Error in arithmetic operation: " ++ e)) :=
  ⟨(arithmetic_spec.1 (.int 2) (.int 3) 2 3 (Or.inl rfl) (Or.inl rfl)).1,
   (arithmetic_spec.1 (.str "10") (.str "4") 10 4
     (Or.inr ⟨"10", rfl, by decide⟩) (Or.inr ⟨"4", rfl, by decide⟩)).2.2.1,
   (arithmetic_spec.1 (.int 5) (.str "3") 5 3
     (Or.inl rfl) (Or.inr ⟨"3", rfl, by decide⟩)).2.1,
   (arithmetic_spec.1 (.str "7") (.int 2) 7 2
     (Or.inr ⟨"7", rfl, by decide⟩) (Or.inl rfl)).2.2.2,
   arithmetic_spec.2.1 "times" (.str "1") (.int 2) 1 2
     (Or.inr ⟨"1", rfl, by decide⟩) (Or.inl rfl)
     (by decide) (by decide) (by decide) (by decide),
   arithmetic_spec.2.2.1 "add" "abc" (.int 1) (by decide),
   arithmetic_spec.2.2.2 "add" "abc" (.int 1) 1 (Or.inl rfl) (by decide)⟩

/-- C3: the turn loop of `process_prompt` is degenerate: for every
backend, in particular one that requests a tool call in every reply, the
call performs exactly one backend round trip (so it terminates within
any round-trip bound of at least one and returns), and its whole result
is already determined by the backend's first reply — there is no
tool-call ping-pong. -/
theorem process_prompt_single_round (env : ToolEnv) (backend : Nat → ChatResponse)
    (prompt : String) (_h : ∀ n, (backend n).tool_calls ≠ []) :
    (process_prompt env backend prompt).backendCalls = 1 ∧
    process_prompt env backend prompt = process_prompt env (fun _ => backend 0) prompt :=
  ⟨rfl, rfl⟩

/-- Witness for `process_prompt_single_round` with a backend that
requests an arithmetic tool call forever. -/
theorem process_prompt_single_round_witness :
    (process_prompt envDefault alwaysToolBackend "What is three plus one?").backendCalls = 1 ∧
    process_prompt envDefault alwaysToolBackend "What is three plus one?" =
      process_prompt envDefault (fun _ => alwaysToolBackend 0) "What is three plus one?" :=
  process_prompt_single_round envDefault alwaysToolBackend "What is three plus one?"
    (fun _ => by simp [alwaysToolBackend])

/-- C7 counterexample: invoking the absent qualified name "calc/div"
does not fail with any error value: `process_prompt` returns None
(`.ok none`) while reporting the miss only as the printed line
"Function calc/div not found" — there is no UnknownCapabilityError
anywhere in the code. -/
theorem process_prompt_unknown_name_counterexample :
    (process_prompt envDefault
      (fun _ => ⟨"", [⟨"calc/div", [("a", PyVal.int 1), ("b", PyVal.int 0)]⟩]⟩)
      "divide 1 by 0").result = .ok none ∧
    "Function calc/div not found" ∈
      (process_prompt envDefault
        (fun _ => ⟨"", [⟨"calc/div", [("a", PyVal.int 1), ("b", PyVal.int 0)]⟩]⟩)
        "divide 1 by 0").log := by
  exact ⟨rfl, by decide⟩

/-- C7 as amended: a tool-call name absent from `available_functions`
never raises and produces no error value: the miss is reported as the
printed line "Function <name> not found" and `process_prompt` returns
None. -/
theorem process_prompt_miss_reports_text (env : ToolEnv) (prompt name : String)
    (args : List (String × PyVal)) (h : name ∉ availableNames) :
    process_prompt env (fun _ => ⟨"", [⟨name, args⟩]⟩) prompt =
      ⟨["Prompt: " ++ prompt, "Function " ++ name ++ " not found"], 1, .ok none⟩ := by
  simp [process_prompt, runToolCalls, h]

/-- Witness for `process_prompt_miss_reports_text` at the spec's
"calc/div" scenario. -/
theorem process_prompt_miss_reports_text_witness :
    process_prompt envDefault
      (fun _ => ⟨"", [⟨"calc/div", [("a", PyVal.int 1), ("b", PyVal.int 0)]⟩]⟩)
      "divide" =
      ⟨["Prompt: divide", "Function calc/div not found"], 1, .ok none⟩ :=
  process_prompt_miss_reports_text envDefault "divide" "calc/div"
    [("a", PyVal.int 1), ("b", PyVal.int 0)] (by decide)

/-- C4 counterexample: a backend reply with content "hello" and no tool
calls makes `process_prompt` return None — the reply's content is
neither recorded anywhere (the function keeps no history) nor returned. -/
theorem process_prompt_drops_no_tool_reply :
    process_prompt envDefault (fun _ => ⟨"hello", []⟩) "hi" =
      ⟨["Prompt: hi"], 1, .ok none⟩ ∧
    (process_prompt envDefault (fun _ => ⟨"hello", []⟩) "hi").result ≠
      .ok (some (PyVal.str "hello")) :=
  ⟨rfl, by simp [process_prompt, runToolCalls]⟩

/-- An initialization environment whose first step (launching the MCP
subprocess) fails. -/
def failEnv : InitEnv :=
  { client := ⟨none⟩, clientEnterFails := some "LaunchError: cannot start uvx",
    session := ⟨none⟩, sessionEnterFails := none, sessionInitFails := none,
    loadToolsResult := .ok [] }

/-- An initialization environment in which every MCP step succeeds. -/
def okEnv : InitEnv :=
  { client := ⟨none⟩, clientEnterFails := none,
    session := ⟨none⟩, sessionEnterFails := none, sessionInitFails := none,
    loadToolsResult := .ok ["calculate"] }

/-- C1 counterexample: when the provider's launch fails, `initialize`
re-raises the exception to its caller (second component `some e` is a
raised exception), so a provider launch failure does propagate out of
the startup call, contrary to the claim that it never raises. -/
theorem init_launch_failure_propagates :
    (initChatbot failEnv (mkChatbot none)).2 = some "LaunchError: cannot start uvx" ∧
    (initChatbot failEnv (mkChatbot none)).2 ≠ none :=
  ⟨rfl, by decide⟩

/-- C1 as amended: `initialize` handles a launch/handshake failure by
logging it and setting `ready := false`, and then RE-RAISES the
exception to its caller instead of reducing it to a per-provider
outcome; the run script, not `initialize`, is what catches it. -/
theorem init_reraises_failure (env : InitEnv) (s : ChatbotState) (e : String)
    (h : initFailure env = some e) :
    (initChatbot env s).2 = some e ∧ (initChatbot env s).1.ready = false := by
  obtain ⟨cl, cf, sess, se, si, lt⟩ := env
  cases cf <;> cases se <;> cases si <;> cases lt <;>
    simp_all [initChatbot, initFailure]

/-- Witness for `init_reraises_failure` on a concrete failing launch. -/
theorem init_reraises_failure_witness :
    (initChatbot failEnv (mkChatbot none)).2 = some "LaunchError: cannot start uvx" ∧
    (initChatbot failEnv (mkChatbot none)).1.ready = false :=
  init_reraises_failure failEnv (mkChatbot none) "LaunchError: cannot start uvx" rfl

/-- C2: inside a `chat` turn of a ready chatbot, the call always returns
normally (`.ok`), and any failure raised by the agent invocation —
including a division-by-zero raised by the invoked capability — is
caught and converted into the error text
"Error processing message: <error>" handed back as the chat result,
never re-raised out of `chat`. -/
theorem chat_catches_agent_errors (env : InitEnv) (out : Except String (List Msg))
    (s : ChatbotState) (msg : String) (h : s.ready = true) :
    (∃ p, chat env out s msg = .ok p) ∧
    ∀ e, out = .error e →
      chat env out s msg =
        .ok ({ s with memory := s.memory ++ [⟨Role.human, msg⟩] },
             "Error processing message: " ++ e) := by
  constructor
  · cases out with
    | error e =>
      exact ⟨({ s with memory := s.memory ++ [⟨Role.human, msg⟩] },
              "Error processing message: " ++ e), by simp [chat, h]⟩
    | ok msgs =>
      exact ⟨({ s with memory :=
                  (msgs.foldl extractStep (s.memory ++ [⟨Role.human, msg⟩], "")).1 },
              (msgs.foldl extractStep (s.memory ++ [⟨Role.human, msg⟩], "")).2),
             by simp [chat, h]⟩
  · rintro e rfl
    simp [chat, h]

/-- Witness for `chat_catches_agent_errors`: the calc/div scenario, where
the capability raises a division by zero. -/
theorem chat_catches_agent_errors_witness :
    (∃ p, chat okEnv (.error "ZeroDivisionError: division by zero")
      { mkChatbot none with ready := true } "calc/div a=1 b=0" = .ok p) ∧
    ∀ e, (Except.error "ZeroDivisionError: division by zero" :
        Except String (List Msg)) = .error e →
      chat okEnv (.error "ZeroDivisionError: division by zero")
          { mkChatbot none with ready := true } "calc/div a=1 b=0" =
        .ok ({ { mkChatbot none with ready := true } with
                memory := ({ mkChatbot none with ready := true } : ChatbotState).memory
                  ++ [⟨Role.human, "calc/div a=1 b=0"⟩] },
             "Error processing message: " ++ e) :=
  chat_catches_agent_errors okEnv (.error "ZeroDivisionError: division by zero")
    { mkChatbot none with ready := true } "calc/div a=1 b=0" rfl

/-- Helper: the extraction loop of `chat` leaves its accumulator
unchanged on messages that are neither an AIMessage nor a ToolMessage
with truthy content. -/
theorem extract_fold_skips (pre : List Msg) (acc : List Msg × String)
    (hpre : ∀ m ∈ pre,
      (m.role = Role.ai → m.content = "") ∧ (m.role = Role.tool → m.content = "")) :
    pre.foldl extractStep acc = acc := by
  induction pre generalizing acc with
  | nil => rfl
  | cons m rest ih =>
    have hm := hpre m (List.mem_cons_self _ _)
    have h1 : ¬(m.role = Role.ai ∧ m.content ≠ "") := fun hx => hx.2 (hm.1 hx.1)
    have h2 : ¬(m.role = Role.tool ∧ m.content ≠ "") := fun hx => hx.2 (hm.2 hx.1)
    rw [List.foldl_cons, show extractStep acc m = acc from by simp [extractStep, h1, h2]]
    exact ih _ (fun q hq => hpre q (List.mem_cons_of_mem _ hq))

/-- C4 as amended (the `OllamaMCPChatbot.chat` side): when the agent
reply ends with an assistant message of nonempty content `c`, preceded
only by messages the extraction loop skips (echoed input), `chat`
appends the user message and that assistant message to history and
returns `c`.  (`process_prompt`, by contrast, returns None for a reply
without tool calls — see the counterexample.) -/
theorem chat_appends_and_returns_reply (env : InitEnv) (s : ChatbotState)
    (msg c : String) (pre : List Msg) (h : s.ready = true) (hc : c ≠ "")
    (hpre : ∀ m ∈ pre,
      (m.role = Role.ai → m.content = "") ∧ (m.role = Role.tool → m.content = "")) :
    chat env (.ok (pre ++ [⟨Role.ai, c⟩])) s msg =
      .ok ({ s with memory := s.memory ++ [⟨Role.human, msg⟩, ⟨Role.ai, c⟩] }, c) := by
  simp only [chat, h, if_true, if_pos]
  rw [List.foldl_append, extract_fold_skips pre _ hpre]
  simp [extractStep, hc]

/-- Witness for `chat_appends_and_returns_reply`: the arithmetic scenario
where the final assistant message is "96". -/
theorem chat_appends_and_returns_reply_witness :
    chat okEnv (.ok ([⟨Role.human, "what is (3 + 5) x 12?"⟩] ++ [⟨Role.ai, "96"⟩]))
        { mkChatbot none with ready := true } "what is (3 + 5) x 12?" =
      .ok ({ { mkChatbot none with ready := true } with
              memory := ({ mkChatbot none with ready := true } : ChatbotState).memory
                ++ [⟨Role.human, "what is (3 + 5) x 12?"⟩, ⟨Role.ai, "96"⟩] }, "96") :=
  chat_appends_and_returns_reply okEnv { mkChatbot none with ready := true }
    "what is (3 + 5) x 12?" "96" [⟨Role.human, "what is (3 + 5) x 12?"⟩]
    rfl (by decide) (by decide)

/-- C8: `cleanup` is idempotent: running it a second time reproduces the
same terminal state (memory emptied, every MCP/session field it resets
set to None, `ready = false`) and the second run logs no error. -/
theorem cleanup_idempotent (s : ChatbotState) :
    cleanup (cleanup s).1 = ((cleanup s).1, none) ∧ ((cleanup s).1).ready = false := by
  cases s
  simp [cleanup]

/-- C9: `clear_history` empties the message history and changes nothing
else: every connection field, the chat model and the ready flag are
untouched — no handle is closed. -/
theorem clear_history_frame (s : ChatbotState) :
    (clear_history s).memory = [] ∧
    (clear_history s).chat_model = s.chat_model ∧
    (clear_history s).mcp_session = s.mcp_session ∧
    (clear_history s).mcp_client = s.mcp_client ∧
    (clear_history s).mcp_read = s.mcp_read ∧
    (clear_history s).mcp_write = s.mcp_write ∧
    (clear_history s).mcp_tools = s.mcp_tools ∧
    (clear_history s).agent = s.agent ∧
    (clear_history s).ready = s.ready ∧
    (clear_history s).system_message = s.system_message := by
  simp [clear_history]

/-- The spec's startup scenario: "calc" active, "web" inactive. -/
def demoConfig : List (String × ServerEntry) :=
  [("calc", ⟨some true, some "tool-calc", some [], some "calc agent"⟩),
   ("web", ⟨some false, some "tool-web", some [], some "web agent"⟩)]

/-- A config with a well-formed active entry followed by an active entry
whose `command` key is missing. -/
def badConfig : List (String × ServerEntry) :=
  [("calc", ⟨some true, some "tool-calc", some [], some "calc agent"⟩),
   ("broken", ⟨some true, none, some [], some "broken agent"⟩)]

/-- C5: on a config whose active entries all carry the three required
keys, `create_agents` constructs exactly one agent per entry whose
active flag is true, in order, and none for entries whose flag is false
or absent. -/
theorem create_agents_one_per_active (config : List (String × ServerEntry))
    (hwf : ∀ p ∈ config, p.2.active.getD false = true →
      p.2.command.isSome ∧ p.2.args.isSome ∧ p.2.instructions.isSome) :
    ∃ l, create_agents config = .ok l ∧
      l.map Prod.fst = (config.filter (fun p => p.2.active.getD false)).map Prod.fst := by
  induction config with
  | nil => exact ⟨[], rfl, rfl⟩
  | cons p rest ih =>
    obtain ⟨name, cfg⟩ := p
    obtain ⟨l, hl, hmap⟩ := ih (fun q hq hq2 => hwf q (List.mem_cons_of_mem _ hq) hq2)
    by_cases hb : cfg.active.getD false = false
    · refine ⟨l, ?_, ?_⟩
      · simp [create_agents, hb, hl]
      · simp [List.filter_cons, hb, hmap]
    · have hb2 : cfg.active.getD false = true := by
        cases hx : cfg.active.getD false
        · exact absurd hx hb
        · rfl
      obtain ⟨h1, h2, h3⟩ := hwf (name, cfg) (List.mem_cons_self _ _) hb2
      obtain ⟨cmd, hcmd⟩ := Option.isSome_iff_exists.mp h1
      obtain ⟨argList, hargs⟩ := Option.isSome_iff_exists.mp h2
      obtain ⟨instr, hinstr⟩ := Option.isSome_iff_exists.mp h3
      have hcmd2 : cfg.command = some cmd := hcmd
      have hargs2 : cfg.args = some argList := hargs
      have hinstr2 : cfg.instructions = some instr := hinstr
      refine ⟨(name, ⟨instr, LLM, String.intercalate " " (cmd :: argList), true⟩) :: l,
        ?_, ?_⟩
      · simp [create_agents, hb2, hcmd2, hargs2, hinstr2, hl]
      · simp [List.filter_cons, hb2, hmap]

/-- Witness for `create_agents_one_per_active`: the spec scenario yields
exactly the one agent named "calc". -/
theorem create_agents_one_per_active_witness :
    ∃ l, create_agents demoConfig = .ok l ∧ l.map Prod.fst = ["calc"] := by
  obtain ⟨l, hl, hmap⟩ := create_agents_one_per_active demoConfig (by decide)
  exact ⟨l, hl, by rw [hmap]; rfl⟩

/-- C6 counterexample: a malformed ACTIVE entry is not skipped — the
bracket access on its missing "command" key raises KeyError and aborts
the whole load, discarding the preceding well-formed active entry. -/
theorem create_agents_malformed_aborts :
    create_agents badConfig = .error "KeyError: command" := rfl

/-- C6 as amended: an entry whose active flag is false or absent is
skipped without aborting the load — even when it is malformed — and the
remaining entries are processed exactly as if it were not there. -/
theorem create_agents_skips_inactive (pre post : List (String × ServerEntry))
    (name : String) (entry : ServerEntry) (h : entry.active.getD false = false) :
    create_agents (pre ++ (name, entry) :: post) = create_agents (pre ++ post) := by
  induction pre with
  | nil => simp [create_agents, h]
  | cons q rest ih =>
    obtain ⟨n, c⟩ := q
    simp only [List.cons_append, create_agents, List.append_eq]
    rw [ih]

/-- Witness for `create_agents_skips_inactive`: an inactive, malformed
"web" entry is skipped and the load equals the load without it. -/
theorem create_agents_skips_inactive_witness :
    create_agents [("calc", ⟨some true, some "tool-calc", some [], some "calc agent"⟩),
                   ("web", ⟨some false, none, none, none⟩)] =
      create_agents [("calc", ⟨some true, some "tool-calc", some [], some "calc agent"⟩)] :=
  create_agents_skips_inactive
    [("calc", ⟨some true, some "tool-calc", some [], some "calc agent"⟩)] []
    "web" ⟨some false, none, none, none⟩ rfl
